import Mathlib

/-!
Verification development for the orchestration-and-validation core of the
GolinelliAIPlayground backend: intent routing, the tool-calling agent loop,
structured-content validation, the sandboxed calculator / python-math tools,
and the tool-free fallback paths.  Each definition is a shallow embedding of
the corresponding Python function, with the generation backend modelled as an
explicit input (a response stream), exceptions modelled as `Except`, and
Python floats modelled as rationals.
-/

set_option maxRecDepth 4000

/-! ## Basic string helpers (Python `in`, `str.replace`, `str.strip`, `str.lower`) -/

/-- Test whether `pat` occurs as a prefix of `hay` (character lists). -/
def subEqAt : List Char → List Char → Bool
  | _, [] => true
  | [], _ :: _ => false
  | h :: hs, p :: ps => h == p && subEqAt hs ps

/-- Test whether `pat` occurs anywhere inside `hay`, like Python `pat in hay`. -/
def hasSubList (pat : List Char) : List Char → Bool
  | [] => subEqAt [] pat
  | c :: rest => subEqAt (c :: rest) pat || hasSubList pat rest

/-- Python's substring containment `pat in s`. -/
def containsSubstr (s pat : String) : Bool :=
  hasSubList pat.data s.data

/-- Index of the first occurrence of `pat` in `hay`, if any. -/
def findSubIdx (pat : List Char) : List Char → Option Nat
  | [] => if subEqAt [] pat then some 0 else none
  | c :: rest =>
    if subEqAt (c :: rest) pat then some 0
    else (findSubIdx pat rest).map (· + 1)

/-- Index of the first occurrence of `pat` in `hay` at position `start` or later. -/
def findSubFrom (pat hay : List Char) (start : Nat) : Option Nat :=
  (findSubIdx pat (hay.drop start)).map (· + start)

/-- Replace all non-overlapping occurrences of `pat` by `rep`, left to right,
like Python `str.replace` (for non-empty `pat`); `fuel` bounds the recursion. -/
def replaceList (pat rep : List Char) : Nat → List Char → List Char
  | _, [] => []
  | 0, l => l
  | Nat.succ fuel, c :: rest =>
    if pat ≠ [] && subEqAt (c :: rest) pat then
      rep ++ replaceList pat rep fuel ((c :: rest).drop pat.length)
    else
      c :: replaceList pat rep fuel rest

/-- Python `s.replace(pat, rep)` (all occurrences). -/
def strReplace (s pat rep : String) : String :=
  String.mk (replaceList pat.data rep.data s.data.length s.data)

/-- Python whitespace characters recognised by `str.strip()` (by codepoint:
space, tab, newline, carriage return, vertical tab, form feed). -/
def isPySpace (c : Char) : Bool :=
  [32, 9, 10, 13, 11, 12].contains c.toNat

/-- Python `s.strip()`. -/
def strStrip (s : String) : String :=
  String.mk (((s.data.dropWhile isPySpace).reverse.dropWhile isPySpace).reverse)

/-- ASCII lower-casing of one character, as Python `str.lower` acts on ASCII. -/
def charLower (c : Char) : Char :=
  if 'A' ≤ c && c ≤ 'Z' then Char.ofNat (c.toNat + 32) else c

/-- ASCII `s.lower()` (identifier tokens in this code base are ASCII). -/
def strLower (s : String) : String :=
  String.mk (s.data.map charLower)

/-! ## Data model shared across the services -/

/-- Intent categories for teacher requests (`TeacherIntent` in `schemas/content.py`). -/
inductive TeacherIntent
  | QUIZ_GENERATION
  | LESSON_GENERATION
  | EXERCISE_GENERATION
  | PRESENTATION_GENERATION
  | WEB_SEARCH
  | ANALYTICS
  | DOCUMENT_HELP
deriving DecidableEq

/-- Result of intent classification (`IntentResult` in `schemas/content.py`);
the float confidence is modelled as a rational. -/
structure IntentResult where
  intent : TeacherIntent
  confidence : ℚ
  extracted_params : Option String
deriving DecidableEq

/-- Result of one sandbox tool execution (`ToolResult` dataclass in `math_agent.py`). -/
structure ToolResult where
  tool_name : String
  input_data : String
  output : String
  success : Bool
  error : Option String
deriving DecidableEq

/-! ## Quiz validation (`QuizQuestion` / `QuizData` in `schemas/content.py`)

The pydantic models are embedded as explicit first-error validators over
typed "JSON dict" inputs: a missing key is `none`.  Acceptance coincides with
pydantic's (all constraints enforced); the error strings are condensed but
each names the violated field/rule.  JSON `null` for optional fields is not
distinguished from an absent key (both normalise the same way here). -/

/-- Untyped argument payload for one quiz question, as decoded from JSON. -/
structure QuizQuestionInput where
  question : Option String
  options : Option (List String)
  correctIndex : Option Int
  explanation : Option String
  points : Option Int
deriving DecidableEq

/-- A validated quiz question (`points` has pydantic default 1). -/
structure QuizQuestion where
  question : String
  options : List String
  correctIndex : Int
  explanation : Option String
  points : Int
deriving DecidableEq

/-- Untyped argument payload for a whole quiz, as decoded from JSON. -/
structure QuizInput where
  title : Option String
  description : Option String
  questions : Option (List QuizQuestionInput)
  total_points : Option Int
  time_limit_minutes : Option Int
deriving DecidableEq

/-- A validated quiz (`total_points` is always filled in after validation). -/
structure QuizData where
  title : String
  description : String
  questions : List QuizQuestion
  total_points : Int
  time_limit_minutes : Option Int
deriving DecidableEq

/-- Validate one question: required fields, `2 ≤ len(options) ≤ 6`,
`0 ≤ correctIndex < len(options)`, `points ≥ 0` with default 1. -/
def validateQuizQuestion (i : QuizQuestionInput) : Except String QuizQuestion :=
  match i.question with
  | none => .error "question: field required"
  | some q =>
    if q.length < 5 then .error "question: at least 5 characters required" else
    match i.options with
    | none => .error "options: field required"
    | some opts =>
      if opts.length < 2 then .error "options: at least 2 items required" else
      if opts.length > 6 then .error "options: at most 6 items allowed" else
      match i.correctIndex with
      | none => .error "correctIndex: field required"
      | some ci =>
        if ci < 0 then .error "correctIndex: must be greater than or equal to 0" else
        if ci ≥ (opts.length : Int) then
          .error ("correctIndex " ++ toString ci ++ " is out of range for " ++
            toString opts.length ++ " options")
        else
          if i.points.getD 1 < 0 then .error "points: must be greater than or equal to 0" else
          .ok ⟨q, opts, ci, i.explanation, i.points.getD 1⟩

/-- Python `q.points or 1`: an explicit 0 (or a missing value already
defaulted) is replaced by 1 because `0` is falsy. -/
def pyOr1 (n : Int) : Int :=
  if n = 0 then 1 else n

/-- Validate the question list in order, stopping at the first error. -/
def validateQuestions : List QuizQuestionInput → Except String (List QuizQuestion)
  | [] => .ok []
  | q :: rest =>
    match validateQuizQuestion q with
    | .error e => .error e
    | .ok v =>
      match validateQuestions rest with
      | .error e => .error e
      | .ok vs => .ok (v :: vs)

/-- Validate a whole quiz: required fields with length bounds, at least one
question (each validated), `total_points` auto-derived as
`sum(q.points or 1)` when absent, `1 ≤ time_limit_minutes ≤ 300` when given. -/
def validateQuizData (i : QuizInput) : Except String QuizData :=
  match i.title with
  | none => .error "title: field required"
  | some t =>
    if t.length < 3 then .error "title: at least 3 characters required" else
    if t.length > 255 then .error "title: at most 255 characters allowed" else
    match i.description with
    | none => .error "description: field required"
    | some d =>
      if d.length < 5 then .error "description: at least 5 characters required" else
      match i.questions with
      | none => .error "questions: field required"
      | some qs =>
        if qs.length < 1 then .error "questions: at least 1 item required" else
        match validateQuestions qs with
        | .error e => .error e
        | .ok vqs =>
          match i.total_points with
          | some tp =>
            if tp < 0 then .error "total_points: must be greater than or equal to 0" else
            match i.time_limit_minutes with
            | some tl =>
              if tl < 1 ∨ tl > 300 then .error "time_limit_minutes: out of range" else
              .ok ⟨t, d, vqs, tp, some tl⟩
            | none => .ok ⟨t, d, vqs, tp, none⟩
          | none =>
            let tp := (vqs.map (fun q => pyOr1 q.points)).foldl (· + ·) 0
            match i.time_limit_minutes with
            | some tl =>
              if tl < 1 ∨ tl > 300 then .error "time_limit_minutes: out of range" else
              .ok ⟨t, d, vqs, tp, some tl⟩
            | none => .ok ⟨t, d, vqs, tp, none⟩

/-! ## Sandboxed math tools (`math_agent.py`)

`safe_calculator` is embedded in full for its guard pipeline; `eval` on the
surviving arithmetic expression is embedded as a tokenizer / precedence
parser / evaluator for Python's arithmetic fragment (int and float literals,
`+ - * / **`, unary sign, parentheses), with Python floats modelled as
rationals.  Inputs outside this fragment (e.g. function calls) evaluate to a
structured error, matching the code's behaviour of converting every
evaluation fault into a failure `ToolResult`. -/

/-- Keys of `SAFE_MATH_FUNCTIONS`: the calculator's identifier allow-list. -/
def allowed_words : List String :=
  ["abs", "round", "min", "max", "sum", "pow", "sqrt", "sin", "cos", "tan",
   "asin", "acos", "atan", "atan2", "sinh", "cosh", "tanh", "exp", "log",
   "log10", "log2", "floor", "ceil", "factorial", "gcd", "lcm", "degrees",
   "radians", "pi", "e", "tau", "inf"]

/-- The notation normalisation at the top of `safe_calculator`:
strip, then `^ → **`, `× → *`, `÷ → /`, `√ → sqrt`. -/
def normalizeCalc (expression : String) : String :=
  let expr := strStrip expression
  let expr := strReplace expr "^" "**"
  let expr := strReplace expr "×" "*"
  let expr := strReplace expr "÷" "/"
  strReplace expr "√" "sqrt"

/-- Characters matched by the identifier regex `[a-zA-Z_]+` (by codepoint). -/
def isWordChar (c : Char) : Bool :=
  let n := c.toNat
  (97 ≤ n && n ≤ 122) || (65 ≤ n && n ≤ 90) || n == 95

/-- Accumulating scanner for `re.findall(r'[a-zA-Z_]+', expr)`. -/
def extractWordsGo : List Char → List Char → List String
  | [], acc => if acc.isEmpty then [] else [String.mk acc.reverse]
  | c :: rest, acc =>
    if isWordChar c then extractWordsGo rest (c :: acc)
    else if acc.isEmpty then extractWordsGo rest []
    else String.mk acc.reverse :: extractWordsGo rest []

/-- All maximal `[a-zA-Z_]+` runs in `s`, in order. -/
def extractWords (s : String) : List String :=
  extractWordsGo s.data []

/-- The first identifier token whose lower-cased form is not allow-listed
(the word the code names in its rejection message). -/
def calcFirstBadWord (expr : String) : Option String :=
  (extractWords expr).find? (fun w => !(allowed_words.contains (strLower w)))

/-- A Python number: `int` or `float` (floats modelled as rationals). -/
inductive PyNum
  | int (i : Int)
  | float (q : ℚ)
deriving DecidableEq

/-- Token stream of the arithmetic fragment. -/
inductive CalcTok
  | num (n : PyNum)
  | ident (s : String)
  | plus | minus | star | slash | dstar | lparen | rparen
deriving DecidableEq

/-- Integer value of a digit run. -/
def digitsToNat (ds : List Char) : Nat :=
  ds.foldl (fun a c => 10 * a + (c.toNat - '0'.toNat)) 0

/-- Fractional value of the digit run after a decimal point. -/
def fracToRat (ds : List Char) : ℚ :=
  (digitsToNat ds : ℚ) / ((10 : ℚ) ^ ds.length)

/-- Tokenizer for the arithmetic fragment (fuel-bounded; fuel ≥ input length). -/
def calcLex : Nat → List Char → Except String (List CalcTok)
  | _, [] => .ok []
  | 0, _ => .error "invalid syntax"
  | Nat.succ fuel, c :: rest =>
    if c == ' ' then calcLex fuel rest
    else if c.isDigit then
      let digs := (c :: rest).takeWhile Char.isDigit
      let rest' := (c :: rest).dropWhile Char.isDigit
      match rest' with
      | '.' :: rest'' =>
        let frac := rest''.takeWhile Char.isDigit
        let rest''' := rest''.dropWhile Char.isDigit
        (calcLex fuel rest''').map
          (fun ts => .num (.float ((digitsToNat digs : ℚ) + fracToRat frac)) :: ts)
      | _ =>
        (calcLex fuel rest').map (fun ts => .num (.int (digitsToNat digs)) :: ts)
    else if c == '.' then
      let frac := rest.takeWhile Char.isDigit
      let rest' := rest.dropWhile Char.isDigit
      if frac.isEmpty then .error "invalid syntax"
      else (calcLex fuel rest').map (fun ts => .num (.float (fracToRat frac)) :: ts)
    else if isWordChar c then
      let run := (c :: rest).takeWhile isWordChar
      let rest' := (c :: rest).dropWhile isWordChar
      (calcLex fuel rest').map (fun ts => .ident (String.mk run) :: ts)
    else if c == '+' then (calcLex fuel rest).map (.plus :: ·)
    else if c == '-' then (calcLex fuel rest).map (.minus :: ·)
    else if c == '*' then
      match rest with
      | '*' :: rest' => (calcLex fuel rest').map (.dstar :: ·)
      | _ => (calcLex fuel rest).map (.star :: ·)
    else if c == '/' then (calcLex fuel rest).map (.slash :: ·)
    else if c == '(' then (calcLex fuel rest).map (.lparen :: ·)
    else if c == ')' then (calcLex fuel rest).map (.rparen :: ·)
    else .error ("invalid character: " ++ String.mk [c])

/-- Abstract syntax of the arithmetic fragment. -/
inductive Arith
  | lit (n : PyNum)
  | pos (a : Arith)
  | neg (a : Arith)
  | add (a b : Arith)
  | sub (a b : Arith)
  | mul (a b : Arith)
  | div (a b : Arith)
  | pow (a b : Arith)
deriving DecidableEq

mutual

/-- Atom: number, named constant, or parenthesised expression.  Named
constants and calls are outside the modelled fragment and yield an error. -/
def parseAtom : Nat → List CalcTok → Except String (Arith × List CalcTok)
  | 0, _ => .error "invalid syntax"
  | Nat.succ _, CalcTok.num n :: rest => .ok (.lit n, rest)
  | Nat.succ _, CalcTok.ident s :: _ =>
    .error ("name evaluation not modelled: " ++ s)
  | Nat.succ fuel, CalcTok.lparen :: rest =>
    match parseAdd fuel rest with
    | .error e => .error e
    | .ok (a, rest') =>
      match rest' with
      | CalcTok.rparen :: rest'' => .ok (a, rest'')
      | _ => .error "invalid syntax"
  | Nat.succ _, _ => .error "invalid syntax"

/-- Python `power ::= atom ['**' u_expr]` (right-hand side binds a unary expression). -/
def parsePower : Nat → List CalcTok → Except String (Arith × List CalcTok)
  | 0, _ => .error "invalid syntax"
  | Nat.succ fuel, toks =>
    match parseAtom fuel toks with
    | .error e => .error e
    | .ok (a, rest) =>
      match rest with
      | CalcTok.dstar :: rest' =>
        match parseUnary fuel rest' with
        | .error e => .error e
        | .ok (b, rest'') => .ok (.pow a b, rest'')
      | _ => .ok (a, rest)

/-- Python `u_expr ::= power | "-" u_expr | "+" u_expr`. -/
def parseUnary : Nat → List CalcTok → Except String (Arith × List CalcTok)
  | 0, _ => .error "invalid syntax"
  | Nat.succ fuel, CalcTok.minus :: rest =>
    match parseUnary fuel rest with
    | .error e => .error e
    | .ok (a, rest') => .ok (.neg a, rest')
  | Nat.succ fuel, CalcTok.plus :: rest =>
    match parseUnary fuel rest with
    | .error e => .error e
    | .ok (a, rest') => .ok (.pos a, rest')
  | Nat.succ fuel, toks => parsePower fuel toks

/-- Left-associative continuation for `*` and `/`. -/
def parseMulRest : Nat → Arith → List CalcTok → Except String (Arith × List CalcTok)
  | 0, _, _ => .error "invalid syntax"
  | Nat.succ fuel, a, CalcTok.star :: rest =>
    match parseUnary fuel rest with
    | .error e => .error e
    | .ok (b, rest') => parseMulRest fuel (.mul a b) rest'
  | Nat.succ fuel, a, CalcTok.slash :: rest =>
    match parseUnary fuel rest with
    | .error e => .error e
    | .ok (b, rest') => parseMulRest fuel (.div a b) rest'
  | Nat.succ _, a, toks => .ok (a, toks)

/-- `m_expr`: a unary expression followed by `*` / `/` continuations. -/
def parseMul : Nat → List CalcTok → Except String (Arith × List CalcTok)
  | 0, _ => .error "invalid syntax"
  | Nat.succ fuel, toks =>
    match parseUnary fuel toks with
    | .error e => .error e
    | .ok (a, rest) => parseMulRest fuel a rest

/-- Left-associative continuation for `+` and `-`. -/
def parseAddRest : Nat → Arith → List CalcTok → Except String (Arith × List CalcTok)
  | 0, _, _ => .error "invalid syntax"
  | Nat.succ fuel, a, CalcTok.plus :: rest =>
    match parseMul fuel rest with
    | .error e => .error e
    | .ok (b, rest') => parseAddRest fuel (.add a b) rest'
  | Nat.succ fuel, a, CalcTok.minus :: rest =>
    match parseMul fuel rest with
    | .error e => .error e
    | .ok (b, rest') => parseAddRest fuel (.sub a b) rest'
  | Nat.succ _, a, toks => .ok (a, toks)

/-- `a_expr`: a multiplicative expression followed by `+` / `-` continuations. -/
def parseAdd : Nat → List CalcTok → Except String (Arith × List CalcTok)
  | 0, _ => .error "invalid syntax"
  | Nat.succ fuel, toks =>
    match parseMul fuel toks with
    | .error e => .error e
    | .ok (a, rest) => parseAddRest fuel a rest

end

/-- Rational value of a Python number. -/
def PyNum.toQ : PyNum → ℚ
  | .int i => (i : ℚ)
  | .float q => q

/-- Python binary `+ - *`: int with int stays int, otherwise float. -/
def pyArith (f : ℚ → ℚ → ℚ) (g : Int → Int → Int) : PyNum → PyNum → PyNum
  | .int a, .int b => .int (g a b)
  | a, b => .float (f a.toQ b.toQ)

/-- Python `**` on the modelled fragment; a float exponent that is not an
integer cannot be represented exactly over ℚ and yields a model-level error. -/
def pyPow : PyNum → PyNum → Except String PyNum
  | .int a, .int b =>
    if 0 ≤ b then .ok (.int (a ^ b.toNat))
    else if a = 0 then .error "0.0 cannot be raised to a negative power"
    else .ok (.float ((a : ℚ) ^ b))
  | a, .int b =>
    if a.toQ = 0 && b < 0 then .error "0.0 cannot be raised to a negative power"
    else .ok (.float (a.toQ ^ b))
  | _, .float _ => .error "non-integer exponent not modelled"

/-- Evaluator for the arithmetic fragment, with Python's division-by-zero fault. -/
def evalArith : Arith → Except String PyNum
  | .lit n => .ok n
  | .pos a => evalArith a
  | .neg a =>
    match evalArith a with
    | .error e => .error e
    | .ok (.int i) => .ok (.int (-i))
    | .ok (.float q) => .ok (.float (-q))
  | .add a b =>
    match evalArith a, evalArith b with
    | .error e, _ => .error e
    | _, .error e => .error e
    | .ok x, .ok y => .ok (pyArith (· + ·) (· + ·) x y)
  | .sub a b =>
    match evalArith a, evalArith b with
    | .error e, _ => .error e
    | _, .error e => .error e
    | .ok x, .ok y => .ok (pyArith (· - ·) (· - ·) x y)
  | .mul a b =>
    match evalArith a, evalArith b with
    | .error e, _ => .error e
    | _, .error e => .error e
    | .ok x, .ok y => .ok (pyArith (· * ·) (· * ·) x y)
  | .div a b =>
    match evalArith a, evalArith b with
    | .error e, _ => .error e
    | _, .error e => .error e
    | .ok x, .ok y =>
      if y.toQ = 0 then .error "division by zero"
      else .ok (.float (x.toQ / y.toQ))
  | .pow a b =>
    match evalArith a, evalArith b with
    | .error e, _ => .error e
    | _, .error e => .error e
    | .ok x, .ok y => pyPow x y

/-- Round half-to-even to an integer, as Python `round` resolves ties. -/
def roundHalfEven (x : ℚ) : Int :=
  let f := ⌊x⌋
  let r := x - (f : ℚ)
  if r < 1/2 then f
  else if r > 1/2 then f + 1
  else if f % 2 = 0 then f else f + 1

/-- Decimal rendering of a multiple of `10 ^ (-10)` (used only for
non-integral float results, which no claim exercises; Python's
shortest-roundtrip float repr is abstracted by this exact decimal form). -/
def ratDecimalStr (scaled : Int) : String :=
  let sign := if scaled < 0 then "-" else ""
  let n := scaled.natAbs
  let ip := n / 10 ^ 10
  let fp := n % 10 ^ 10
  if fp = 0 then sign ++ toString ip ++ ".0"
  else
    let fracFull := toString (fp + 10 ^ 10)
    let frac := (fracFull.data.drop 1).reverse.dropWhile (· == '0') |>.reverse
    sign ++ toString ip ++ "." ++ String.mk frac

/-- The result formatting of `safe_calculator`: an integral float is printed
as an int, otherwise the float is rounded to 10 decimals. -/
def formatCalcResult : PyNum → String
  | .int i => toString i
  | .float q =>
    if q.den = 1 then toString q.num
    else ratDecimalStr (roundHalfEven (q * 10 ^ 10))

/-- Full evaluation pipeline applied after the identifier guard:
tokenize, parse, require all tokens consumed, evaluate. -/
def calcEval (expr : String) : Except String PyNum :=
  match calcLex expr.data.length expr.data with
  | .error e => .error e
  | .ok toks =>
    match parseAdd (4 * toks.length + 4) toks with
    | .error e => .error e
    | .ok (a, []) => evalArith a
    | .ok (_, _ :: _) => .error "invalid syntax"

/-- Instrumented `safe_calculator`: the Boolean records whether evaluation was
attempted (the identifier guard fires strictly before any evaluation). -/
def safe_calculator_run (expression : String) : ToolResult × Bool :=
  let expr := normalizeCalc expression
  match calcFirstBadWord expr with
  | some w =>
    (⟨"calculator", expression, "", false, some ("Funzione non consentita: " ++ w)⟩, false)
  | none =>
    match calcEval expr with
    | .ok v => (⟨"calculator", expression, formatCalcResult v, true, none⟩, true)
    | .error e => (⟨"calculator", expression, "", false, some e⟩, true)

/-- `safe_calculator` from `math_agent.py`. -/
def safe_calculator (expression : String) : ToolResult :=
  (safe_calculator_run expression).1

/-! ## `safe_python_math` (`math_agent.py`)

Python `exec` over the restricted environment is embedded as a small-step
interpreter for straight-line snippets: integer literals, additions, name
references, assignments and `print` calls.  Name resolution follows `exec`
with the code's `safe_globals`: locals first, then the injected globals; an
unresolvable name raises `NameError` at the moment the reference is reached,
which the embedding surfaces exactly like the code's `except` branch. -/

/-- Names reachable inside the `exec` environment: the allow-listed builtins
plus the explicitly injected math names (`safe_globals` in the source). -/
def pyGlobalNames : List String :=
  ["abs", "round", "min", "max", "sum", "pow", "len", "range", "enumerate",
   "zip", "map", "filter", "sorted", "reversed", "list", "tuple", "set",
   "dict", "int", "float", "str", "bool", "print", "isinstance", "type",
   "math", "sqrt", "sin", "cos", "tan", "pi", "e", "log", "exp"]

/-- Values in the modelled snippets: integers, or an opaque environment
object (a module / builtin function referenced by name). -/
inductive PyVal
  | int (i : Int)
  | obj (name : String)
deriving DecidableEq

/-- `str` of a modelled value (objects render as an opaque tag). -/
def pyValStr : PyVal → String
  | .int i => toString i
  | .obj n => "<object " ++ n ++ ">"

/-- Expressions of the modelled snippet fragment. -/
inductive PyExpr
  | lit (n : Int)
  | var (name : String)
  | add (a b : PyExpr)
deriving DecidableEq

/-- Statements of the modelled snippet fragment. -/
inductive PyStmt
  | assign (x : String) (e : PyExpr)
  | exprStmt (e : PyExpr)
  | printStmt (e : PyExpr)
deriving DecidableEq

/-- Ordered-dict update: reassignment keeps the key's original position,
like a Python dict. -/
def updateAssoc (k : String) (v : PyVal) : List (String × PyVal) → List (String × PyVal)
  | [] => [(k, v)]
  | (k', v') :: rest =>
    if k' = k then (k, v) :: rest else (k', v') :: updateAssoc k v rest

/-- Lookup in the ordered locals dict. -/
def lookupAssoc (k : String) : List (String × PyVal) → Option PyVal
  | [] => none
  | (k', v) :: rest => if k' = k then some v else lookupAssoc k rest

/-- Evaluate an expression: locals first, then the injected globals; an
unknown name raises `NameError` with Python's message text. -/
def evalPyExpr (locals : List (String × PyVal)) : PyExpr → Except String PyVal
  | .lit n => .ok (.int n)
  | .var n =>
    match lookupAssoc n locals with
    | some v => .ok v
    | none =>
      if pyGlobalNames.contains n then .ok (.obj n)
      else .error ("name '" ++ n ++ "' is not defined")
  | .add a b =>
    match evalPyExpr locals a, evalPyExpr locals b with
    | .error e, _ => .error e
    | _, .error e => .error e
    | .ok (.int x), .ok (.int y) => .ok (.int (x + y))
    | .ok _, .ok _ => .error "unsupported operand type(s) for +"

/-- Interpreter state during `exec`: the local namespace, captured print
output, and how many statements have completed. -/
structure PyState where
  locals : List (String × PyVal)
  printed : List String
  executed : Nat
deriving DecidableEq

/-- Run the statements in order, stopping at the first fault
(faithful to `exec` raising out of the snippet). -/
def pyExecStmts : List PyStmt → PyState → PyState × Option String
  | [], st => (st, none)
  | stmt :: rest, st =>
    match stmt with
    | .assign x e =>
      match evalPyExpr st.locals e with
      | .error err => (st, some err)
      | .ok v =>
        pyExecStmts rest ⟨updateAssoc x v st.locals, st.printed, st.executed + 1⟩
    | .exprStmt e =>
      match evalPyExpr st.locals e with
      | .error err => (st, some err)
      | .ok _ => pyExecStmts rest ⟨st.locals, st.printed, st.executed + 1⟩
    | .printStmt e =>
      match evalPyExpr st.locals e with
      | .error err => (st, some err)
      | .ok v =>
        pyExecStmts rest ⟨st.locals, st.printed ++ [pyValStr v], st.executed + 1⟩

/-- Rendering of one modelled expression back to source text. -/
def renderPyExpr : PyExpr → String
  | .lit n => toString n
  | .var s => s
  | .add a b => renderPyExpr a ++ " + " ++ renderPyExpr b

/-- Rendering of one modelled statement back to source text. -/
def renderPyStmt : PyStmt → String
  | .assign x e => x ++ " = " ++ renderPyExpr e
  | .exprStmt e => renderPyExpr e
  | .printStmt e => "print(" ++ renderPyExpr e ++ ")"

/-- Rendering of a snippet back to source text (the `input_data` field). -/
def renderPyCode (code : List PyStmt) : String :=
  String.intercalate "\n" (code.map renderPyStmt)

/-- The output-selection ladder of `safe_python_math` (lines 181-192):
captured prints, else `result`, else `risultato`, else the last local
in insertion order, else the generic no-output message. -/
def pySelectOutput (st : PyState) : String :=
  if st.printed ≠ [] then String.intercalate "\n" st.printed
  else
    match lookupAssoc "result" st.locals with
    | some v => pyValStr v
    | none =>
      match lookupAssoc "risultato" st.locals with
      | some v => pyValStr v
      | none =>
        match st.locals.getLast? with
        | some (_, v) => pyValStr v
        | none => "Codice eseguito senza output"

/-- Instrumented `safe_python_math`: also returns how many statements
completed before the run ended. -/
def safe_python_math_run (code : List PyStmt) : ToolResult × Nat :=
  let (st, fault) := pyExecStmts code ⟨[], [], 0⟩
  match fault with
  | some err => (⟨"python", renderPyCode code, "", false, some err⟩, st.executed)
  | none => (⟨"python", renderPyCode code, pySelectOutput st, true, none⟩, st.executed)

/-- `safe_python_math` from `math_agent.py`. -/
def safe_python_math (code : List PyStmt) : ToolResult :=
  (safe_python_math_run code).1

/-- Syntactic test: does the snippet reference (read) an identifier outside
the sandbox allow-list anywhere, ignoring locally assigned names?  Used to
state the claim about "snippets referencing a disallowed identifier". -/
def exprRefsDisallowed (assigned : List String) : PyExpr → Bool
  | .lit _ => false
  | .var n => !(assigned.contains n) && !(pyGlobalNames.contains n)
  | .add a b => exprRefsDisallowed assigned a || exprRefsDisallowed assigned b

/-- Fold `exprRefsDisallowed` over a snippet, tracking assignments. -/
def stmtsRefDisallowed (assigned : List String) : List PyStmt → Bool
  | [] => false
  | .assign x e :: rest =>
    exprRefsDisallowed assigned e || stmtsRefDisallowed (x :: assigned) rest
  | .exprStmt e :: rest =>
    exprRefsDisallowed assigned e || stmtsRefDisallowed assigned rest
  | .printStmt e :: rest =>
    exprRefsDisallowed assigned e || stmtsRefDisallowed assigned rest

/-- Whole-snippet disallowed-reference test (empty initial namespace). -/
def pyRefsDisallowed (code : List PyStmt) : Bool :=
  stmtsRefDisallowed [] code

/-! ## JSON (`json.loads` / `json.dumps(indent=2, ensure_ascii=False)`)

The standard-library JSON round-trip used by the teacher agent is embedded
as an executable parser and pretty-printer over an explicit JSON value
type.  Object fields keep document order (as Python dicts do); duplicate
keys resolve to the last occurrence, as in `json.loads`. -/

/-- JSON values (`numF` carries a float literal as a rational). -/
inductive PyJson
  | null
  | bool (b : Bool)
  | numI (n : Int)
  | numF (q : ℚ)
  | str (s : String)
  | arr (xs : List PyJson)
  | obj (fields : List (String × PyJson))

/-- Skip JSON whitespace (space, tab, newline, carriage return). -/
def skipJWs (l : List Char) : List Char :=
  l.dropWhile (fun c => [32, 9, 10, 13].contains c.toNat)

/-- Dict-like insertion: a repeated key overwrites in place, a new key is
appended at the end. -/
def insertJKey (acc : List (String × PyJson)) (k : String) (v : PyJson) :
    List (String × PyJson) :=
  if acc.any (fun f => f.1 = k) then
    acc.map (fun f => if f.1 = k then (k, v) else f)
  else acc ++ [(k, v)]

/-- Hex digit value (by codepoint: `0-9`, `a-f`, `A-F`). -/
def hexVal (c : Char) : Option Nat :=
  let n := c.toNat
  if 48 ≤ n ∧ n ≤ 57 then some (n - 48)
  else if 97 ≤ n ∧ n ≤ 102 then some (n - 87)
  else if 65 ≤ n ∧ n ≤ 70 then some (n - 55)
  else none

/-- Parse the body of a JSON string after the opening quote; returns the
decoded characters and the input after the closing quote. -/
def parseJString : Nat → List Char → Except String (List Char × List Char)
  | 0, _ => .error "Unterminated string"
  | Nat.succ _, [] => .error "Unterminated string"
  | Nat.succ fuel, c :: rest =>
    if c == '"' then .ok ([], rest)
    else if c == '\\' then
      match rest with
      | [] => .error "Unterminated string"
      | e :: rest' =>
        let dec : Except String (List Char × List Char) :=
          if e == '"' then .ok (['"'], rest')
          else if e == '\\' then .ok (['\\'], rest')
          else if e == '/' then .ok (['/'], rest')
          else if e == 'b' then .ok ([Char.ofNat 8], rest')
          else if e == 'f' then .ok ([Char.ofNat 12], rest')
          else if e == 'n' then .ok (['\n'], rest')
          else if e == 'r' then .ok (['\r'], rest')
          else if e == 't' then .ok (['\t'], rest')
          else if e == 'u' then
            match rest' with
            | h1 :: h2 :: h3 :: h4 :: rest'' =>
              match hexVal h1, hexVal h2, hexVal h3, hexVal h4 with
              | some a, some b, some c2, some d =>
                .ok ([Char.ofNat (((a * 16 + b) * 16 + c2) * 16 + d)], rest'')
              | _, _, _, _ => .error "Invalid hex escape"
            | _ => .error "Invalid hex escape"
          else .error "Invalid escape"
        match dec with
        | .error err => .error err
        | .ok (cs, rest2) =>
          match parseJString fuel rest2 with
          | .error err => .error err
          | .ok (s, rest3) => .ok (cs ++ s, rest3)
    else if c.toNat < 32 then .error "Invalid control character"
    else
      match parseJString fuel rest with
      | .error err => .error err
      | .ok (s, rest') => .ok (c :: s, rest')

/-- Parse a JSON number at the head of the input, consuming exactly the
maximal match of `-?(0|[1-9][0-9]*)(\.[0-9]+)?([eE][-+]?[0-9]+)?`. -/
def parseJNumber (l : List Char) : Except String (PyJson × List Char) :=
  let (neg, l1) := match l with
    | '-' :: r => (true, r)
    | _ => (false, l)
  match l1 with
  | [] => .error "Expecting value"
  | c :: _ =>
    if !c.isDigit then .error "Expecting value" else
    let (ipDigits, r1) :=
      if c == '0' then ([c], l1.drop 1)
      else (l1.takeWhile Char.isDigit, l1.dropWhile Char.isDigit)
    let (fracDigits, r2) :=
      match r1 with
      | '.' :: r1' =>
        let fr := r1'.takeWhile Char.isDigit
        if fr.isEmpty then (([] : List Char), r1)
        else (fr, r1'.dropWhile Char.isDigit)
      | _ => ([], r1)
    let (hasExp, expNeg, expDigits, r3) :=
      match r2 with
      | e :: r2' =>
        if e == 'e' || e == 'E' then
          match r2' with
          | '+' :: r2'' =>
            let ed := r2''.takeWhile Char.isDigit
            if ed.isEmpty then (false, false, ([] : List Char), r2)
            else (true, false, ed, r2''.dropWhile Char.isDigit)
          | '-' :: r2'' =>
            let ed := r2''.takeWhile Char.isDigit
            if ed.isEmpty then (false, false, ([] : List Char), r2)
            else (true, true, ed, r2''.dropWhile Char.isDigit)
          | _ =>
            let ed := r2'.takeWhile Char.isDigit
            if ed.isEmpty then (false, false, ([] : List Char), r2)
            else (true, false, ed, r2'.dropWhile Char.isDigit)
        else (false, false, ([] : List Char), r2)
      | _ => (false, false, ([] : List Char), r2)
    if fracDigits.isEmpty && !hasExp then
      let v : Int := (digitsToNat ipDigits : Int)
      .ok (.numI (if neg then -v else v), r1)
    else
      let base : ℚ := (digitsToNat ipDigits : ℚ) + fracToRat fracDigits
      let expVal : Int :=
        if hasExp then
          (if expNeg then -(digitsToNat expDigits : Int) else (digitsToNat expDigits : Int))
        else 0
      let v : ℚ := base * (10 : ℚ) ^ expVal
      .ok (.numF (if neg then -v else v), r3)

mutual

/-- Parse one JSON value at the head of the input (no leading whitespace). -/
def jsonParseVal : Nat → List Char → Except String (PyJson × List Char)
  | 0, _ => .error "Expecting value"
  | Nat.succ fuel, l =>
    if subEqAt l "null".data then .ok (.null, l.drop 4)
    else if subEqAt l "true".data then .ok (.bool true, l.drop 4)
    else if subEqAt l "false".data then .ok (.bool false, l.drop 5)
    else
    match l with
    | '"' :: rest =>
      match parseJString rest.length rest with
      | .error e => .error e
      | .ok (cs, rest') => .ok (.str (String.mk cs), rest')
    | '[' :: rest =>
      match skipJWs rest with
      | ']' :: rest' => .ok (.arr [], rest')
      | rest' => jsonParseArrElems fuel [] rest'
    | c :: rest =>
      if c == Char.ofNat 123 then
        match skipJWs rest with
        | c' :: rest' =>
          if c' == Char.ofNat 125 then .ok (.obj [], rest')
          else jsonParseObjElems fuel [] (c' :: rest')
        | [] => .error "Expecting property name"
      else parseJNumber (c :: rest)
    | [] => .error "Expecting value"

/-- Parse the elements of a non-empty JSON array. -/
def jsonParseArrElems : Nat → List PyJson → List Char → Except String (PyJson × List Char)
  | 0, _, _ => .error "Expecting value"
  | Nat.succ fuel, acc, l =>
    match jsonParseVal fuel l with
    | .error e => .error e
    | .ok (v, rest) =>
      match skipJWs rest with
      | ',' :: rest' => jsonParseArrElems fuel (v :: acc) (skipJWs rest')
      | ']' :: rest' => .ok (.arr (acc.reverse ++ [v]), rest')
      | _ => .error "Expecting comma delimiter"

/-- Parse the members of a non-empty JSON object.  As in a Python dict, a
duplicate key overwrites the stored value but keeps its original position. -/
def jsonParseObjElems : Nat → List (String × PyJson) → List Char →
    Except String (PyJson × List Char)
  | 0, _, _ => .error "Expecting value"
  | Nat.succ fuel, acc, l =>
    match l with
    | '"' :: rest =>
      match parseJString rest.length rest with
      | .error e => .error e
      | .ok (key, rest') =>
        match skipJWs rest' with
        | ':' :: rest'' =>
          match jsonParseVal fuel (skipJWs rest'') with
          | .error e => .error e
          | .ok (v, rest3) =>
            match skipJWs rest3 with
            | ',' :: rest4 =>
              match skipJWs rest4 with
              | '"' :: rest5 =>
                jsonParseObjElems fuel (insertJKey acc (String.mk key) v) ('"' :: rest5)
              | _ => .error "Expecting property name"
            | c :: rest4 =>
              if c == Char.ofNat 125 then
                .ok (.obj (insertJKey acc (String.mk key) v), rest4)
              else .error "Expecting comma delimiter"
            | [] => .error "Expecting comma delimiter"
        | _ => .error "Expecting colon delimiter"
    | _ => .error "Expecting property name"

end

/-- Python `json.loads`: parse one document and require only whitespace after it. -/
def jsonLoads (s : String) : Except String PyJson :=
  match jsonParseVal (s.data.length + 1) (skipJWs s.data) with
  | .error e => .error e
  | .ok (v, rest) =>
    match skipJWs rest with
    | [] => .ok v
    | _ => .error "Extra data"

/-- Escape one character for a JSON string literal with `ensure_ascii=False`. -/
def jsonEscapeChar (c : Char) : List Char :=
  if c == '"' then ['\\', '"']
  else if c == '\\' then ['\\', '\\']
  else if c == '\n' then ['\\', 'n']
  else if c == '\t' then ['\\', 't']
  else if c == '\r' then ['\\', 'r']
  else if c == Char.ofNat 8 then ['\\', 'b']
  else if c == Char.ofNat 12 then ['\\', 'f']
  else if c.toNat < 32 then
    let hx := fun (n : Nat) => Char.ofNat (if n < 10 then 48 + n else 87 + n)
    ['\\', 'u', '0', '0', hx (c.toNat / 16), hx (c.toNat % 16)]
  else [c]

/-- A quoted JSON string literal (`ensure_ascii=False`: non-ASCII kept raw). -/
def jsonQuote (s : String) : String :=
  String.mk ('"' :: (s.data.flatMap jsonEscapeChar) ++ ['"'])

/-- Rendering of a float literal: integral floats as `n.0`, other values by
their terminating decimal expansion when one exists within 17 digits (all
floats in this development are such), else as an exact fraction. -/
def jsonFloatStr (q : ℚ) : String :=
  if q.den = 1 then toString q.num ++ ".0"
  else
    match (List.range 18).find? (fun k => (q * (10 : ℚ) ^ k).den = 1) with
    | some k =>
      let scaled := (q * (10 : ℚ) ^ k).num
      let sign := if scaled < 0 then "-" else ""
      let n := scaled.natAbs
      let ip := n / 10 ^ k
      let fracFull := toString (n % 10 ^ k + 10 ^ k)
      sign ++ toString ip ++ "." ++ String.mk (fracFull.data.drop 1)
    | none => toString q.num ++ "/" ++ toString q.den

/-- Indentation for `json.dumps(indent=2)` at nesting depth `lvl`. -/
def jsonInd (lvl : Nat) : String :=
  String.mk (List.replicate (2 * lvl) ' ')

mutual

/-- `json.dumps(v, indent=2, ensure_ascii=False)` at nesting depth `lvl`. -/
def jsonDump : PyJson → Nat → String
  | .null, _ => "null"
  | .bool true, _ => "true"
  | .bool false, _ => "false"
  | .numI n, _ => toString n
  | .numF q, _ => jsonFloatStr q
  | .str s, _ => jsonQuote s
  | .arr [], _ => "[]"
  | .arr (x :: xs), lvl =>
    "[\n" ++ String.intercalate ",\n" (jsonDumpItems (x :: xs) (lvl + 1)) ++
      "\n" ++ jsonInd lvl ++ "]"
  | .obj [], _ => "\x7b\x7d"
  | .obj (f :: fs), lvl =>
    "\x7b\n" ++ String.intercalate ",\n" (jsonDumpFields (f :: fs) (lvl + 1)) ++
      "\n" ++ jsonInd lvl ++ "\x7d"

/-- Indented renderings of array items. -/
def jsonDumpItems : List PyJson → Nat → List String
  | [], _ => []
  | x :: xs, lvl => (jsonInd lvl ++ jsonDump x lvl) :: jsonDumpItems xs lvl

/-- Indented renderings of object members. -/
def jsonDumpFields : List (String × PyJson) → Nat → List String
  | [], _ => []
  | (k, v) :: fs, lvl =>
    (jsonInd lvl ++ jsonQuote k ++ ": " ++ jsonDump v lvl) :: jsonDumpFields fs lvl

end

/-- Top-level `json.dumps(v, indent=2, ensure_ascii=False)`. -/
def jsonDumps (v : PyJson) : String :=
  jsonDump v 0

/-! ## Intent classification and routing (`teacher_agent.py`)

The classifier's generation-backend round trip is modelled as an explicit
input of type `Except Unit (TeacherIntent × ℚ × Option String)`: `.error`
covers a backend fault, an undecodable reply, and an unrecognised intent
string alike, since all collapse to the same `except` fallback in the code.
The returned `Nat` counts generation-backend calls issued. -/

/-- The forced-override tag table (`mode_prefixes`), in source order. -/
def mode_prefixes : List (List String × TeacherIntent) :=
  [(["RICERCA WEB:", "🌐"], .WEB_SEARCH),
   (["CREA PRESENTAZIONE:", "📊"], .PRESENTATION_GENERATION),
   (["CREA QUIZ:", "❓"], .QUIZ_GENERATION),
   (["CREA LEZIONE:", "📚"], .LESSON_GENERATION),
   (["GENERA REPORT:", "📈"], .ANALYTICS),
   (["GENERA IMMAGINE:", "🎨"], .ANALYTICS)]

/-- The first table entry one of whose tag variants occurs in the message
(Python iterates the dict in insertion order and tests `prefix in message`). -/
def firstForcedMatch (message : String) : Option (List String × TeacherIntent) :=
  mode_prefixes.find? (fun e => e.1.any (fun p => containsSubstr message p))

/-- `clean_message`: remove all tag variants of the matched entry, then strip. -/
def stripForced (ps : List String) (message : String) : String :=
  strStrip (ps.foldl (fun m p => strReplace m p "") message)

/-- `classify_intent`.  In the forced-tag branch the code computes the
stripped topic but passes it to `IntentResult` under the keyword `topic`,
which is not a field of the model (`extracted_params` is); pydantic v2
ignores unknown keywords, so the result's `extracted_params` is `None`.
The embedding reproduces this faithfully. -/
def classify_intent (message : String)
    (backend : Except Unit (TeacherIntent × ℚ × Option String)) : IntentResult × Nat :=
  match firstForcedMatch message with
  | some (ps, intent) =>
    let _topic := stripForced ps message
    (⟨intent, 1, none⟩, 0)
  | none =>
    match backend with
    | .ok (intent, confidence, topic) => (⟨intent, confidence, topic⟩, 1)
    | .error _ => (⟨.ANALYTICS, 1/2, none⟩, 1)

/-- The confidence floor inside `run_teacher_agent`: below 0.6 the routed
intent is overridden to `ANALYTICS`. -/
def resolveIntent (r : IntentResult) : TeacherIntent :=
  if r.confidence < 6/10 then .ANALYTICS else r.intent

/-- `run_teacher_agent` after classification: route on the resolved intent;
on any fault from the routed generator the `except` branch calls
`generate_with_analytics` — whose own outcome `analyticsNet` is *not*
protected by a further handler, so its fault propagates to the caller.
`route` gives each routed generator's outcome (for `ANALYTICS` and
`DOCUMENT_HELP` this is itself a `generate_with_analytics` outcome). -/
def run_teacher_agent (cls : IntentResult)
    (route : TeacherIntent → Except String String)
    (analyticsNet : Except String String) : Except String String :=
  match route (resolveIntent cls) with
  | .ok s => .ok s
  | .error _ => analyticsNet

/-! ## The with-tools quiz agent loop (`generate_quiz_with_tools`)

The loop is embedded with the OpenAI chat backend as an explicit response
stream `backend : Nat → BackendResponse` (index = how many calls were made
before this one).  A `fault` response models the API call raising; a reply
with an empty `tool_calls` list is a final text, mirroring the falsy test
`if message.tool_calls:`.  The lesson / exercise / presentation loops are
line-for-line copies of this one with other validators and fence names. -/

/-- Message roles of the conversation. -/
inductive Role
  | system | user | assistant | tool
deriving DecidableEq

/-- One conversation message (tool-call payloads and ids are carried by the
loop state itself and are not needed for the stated properties). -/
structure Msg where
  role : Role
  content : String
deriving DecidableEq

/-- One tool-call request from the model: `arguments = none` models a
JSON-undecodable argument string, which the code turns into `args = {}`. -/
structure QuizToolCall where
  id : String
  name : String
  arguments : Option QuizInput
deriving DecidableEq

/-- The all-absent argument dict. -/
def emptyQuizInput : QuizInput :=
  ⟨none, none, none, none, none⟩

/-- One response of the chat backend. -/
inductive BackendResponse
  | fault (msg : String)
  | reply (content : String) (tool_calls : List QuizToolCall)
deriving DecidableEq

/-- How one run of the loop ended. -/
inductive TermReason
  | finalResponse | exhausted | raised
deriving DecidableEq

deriving instance DecidableEq for Except

/-- Observable outcome of one run: the returned (or raised) value, the
number of backend calls issued, the messages appended after the initial
conversation, the captured artifact, the termination shape, and the raw
text of the terminating tool-call-free response if there was one. -/
structure LoopOut where
  result : Except String String
  calls : Nat
  messages : List Msg
  artifact : Option QuizData
  reason : TermReason
  finalRaw : Option String
deriving DecidableEq

/-- `model_dump()` of a validated question, in field order. -/
def quizQuestionToJson (q : QuizQuestion) : PyJson :=
  .obj [("question", .str q.question),
        ("options", .arr (q.options.map .str)),
        ("correctIndex", .numI q.correctIndex),
        ("explanation", match q.explanation with
          | some e => .str e
          | none => .null),
        ("points", .numI q.points)]

/-- `model_dump()` of a validated quiz, in field order. -/
def quizToJson (d : QuizData) : PyJson :=
  .obj [("title", .str d.title),
        ("description", .str d.description),
        ("questions", .arr (d.questions.map quizQuestionToJson)),
        ("total_points", .numI d.total_points),
        ("time_limit_minutes", match d.time_limit_minutes with
          | some t => .numI t
          | none => .null)]

/-- The fenced `quiz_data` block appended to a reply. -/
def quizBlock (d : QuizData) : String :=
  "\n\n```quiz_data\n" ++ jsonDumps (quizToJson d) ++ "\n```"

/-- The terminal apology of the quiz loop. -/
def quizApology : String :=
  "Mi dispiace, non sono riuscito a completare la generazione del quiz."

/-- Execute the tool calls of one response in request order.  `create_quiz`
validates via `QuizData`; a validation failure *raises* (`execute_create_quiz`
re-raises as `ValueError`), so the returned error aborts the remaining calls
with no tool message appended for the failing request.  An unknown tool name
appends a generic tool message and continues. -/
def execQuizToolCalls : List QuizToolCall → List Msg → Option QuizData →
    List Msg × Option QuizData × Option String
  | [], msgs, art => (msgs, art, none)
  | tc :: rest, msgs, art =>
    if tc.name = "create_quiz" then
      match validateQuizData (tc.arguments.getD emptyQuizInput) with
      | .error e => (msgs, art, some ("Errore nella creazione del quiz: " ++ e))
      | .ok d =>
        let out := "Quiz creato con successo: " ++ d.title ++ " con " ++
          toString d.questions.length ++ " domande"
        execQuizToolCalls rest (msgs ++ [⟨.tool, out⟩]) (some d)
    else
      execQuizToolCalls rest (msgs ++ [⟨.tool, "Tool sconosciuto: " ++ tc.name⟩]) art

/-- The iteration loop of `generate_quiz_with_tools`: `fuel` is the number of
remaining iterations, `calls` the number of backend calls already issued.
An exception (backend fault or validation error) is swallowed unless it
occurs on the last iteration (`iteration == max_iterations - 1`), where it
is re-raised. -/
def quizLoopAux (backend : Nat → BackendResponse) :
    Nat → Nat → List Msg → Option QuizData → LoopOut
  | 0, calls, msgs, art =>
    match art with
    | some d => ⟨.ok ("Quiz generato:" ++ quizBlock d), calls, msgs, art, .exhausted, none⟩
    | none => ⟨.ok quizApology, calls, msgs, none, .exhausted, none⟩
  | Nat.succ fuel, calls, msgs, art =>
    match backend calls with
    | .fault e =>
      if fuel = 0 then ⟨.error e, calls + 1, msgs, art, .raised, none⟩
      else quizLoopAux backend fuel (calls + 1) msgs art
    | .reply content tcs =>
      match tcs with
      | [] =>
        match art with
        | some d =>
          let text :=
            if containsSubstr content "```quiz_data" then content
            else content ++ quizBlock d
          ⟨.ok text, calls + 1, msgs, art, .finalResponse, some content⟩
        | none => ⟨.ok content, calls + 1, msgs, art, .finalResponse, some content⟩
      | _ :: _ =>
        let msgs1 := msgs ++ [⟨.assistant, content⟩]
        match execQuizToolCalls tcs msgs1 art with
        | (msgs2, art2, some e) =>
          if fuel = 0 then ⟨.error e, calls + 1, msgs2, art2, .raised, none⟩
          else quizLoopAux backend fuel (calls + 1) msgs2 art2
        | (msgs2, art2, none) => quizLoopAux backend fuel (calls + 1) msgs2 art2

/-- `generate_quiz_with_tools` on the OpenAI branch (tool calling available);
`max_iterations` defaults to 3 in the source.  The initial conversation is
the system prompt plus the caller's messages; `LoopOut.messages` extends it. -/
def generate_quiz_with_tools (backend : Nat → BackendResponse)
    (userMessages : List Msg) (max_iterations : Nat) : LoopOut :=
  quizLoopAux backend max_iterations 0
    (⟨Role.system, "QUIZ_AGENT_PROMPT"⟩ :: userMessages) none

/-! ## Tool-free fallback generators

`generate_quiz_without_tools`, `generate_lesson_without_tools` and
`generate_exercise_without_tools` send one completion request and return
`response.content` unchanged — no fence check, no extraction, no warning.
Only `generate_presentation_without_tools` post-processes the reply; its
post-processing of `response.content` is embedded below. -/

/-- `generate_quiz_without_tools`: returns the model reply as-is. -/
def generate_quiz_without_tools (responseContent : String) : String :=
  responseContent

/-- `generate_lesson_without_tools`: returns the model reply as-is. -/
def generate_lesson_without_tools (responseContent : String) : String :=
  responseContent

/-- `generate_exercise_without_tools`: returns the model reply as-is. -/
def generate_exercise_without_tools (responseContent : String) : String :=
  responseContent

/-- The search for
`re.search(r'\x7b[\s\S]*?"title"[\s\S]*?"slides"[\s\S]*?\[[\s\S]*?\][\s\S]*?\x7d', content)`.
With every quantifier lazy and each later literal constrained to occur after
the previous one, the leftmost match (when one exists) starts at the first
`\x7b` of the string and each literal lands on its earliest occurrence after
the previous literal, so the search reduces to successive first-occurrence
lookups. -/
def presRegexSearch (s : String) : Option String :=
  let l := s.data
  match findSubIdx [Char.ofNat 123] l with
  | none => none
  | some i =>
    match findSubFrom ('"' :: "title".data ++ ['"']) l (i + 1) with
    | none => none
    | some j1 =>
      match findSubFrom ('"' :: "slides".data ++ ['"']) l (j1 + 7) with
      | none => none
      | some j2 =>
        match findSubFrom ['['] l (j2 + 8) with
        | none => none
        | some j3 =>
          match findSubFrom [']'] l (j3 + 1) with
          | none => none
          | some j4 =>
            match findSubFrom [Char.ofNat 125] l (j4 + 1) with
            | none => none
            | some j5 => some (String.mk ((l.drop i).take (j5 + 1 - i)))

/-- Last-binding lookup in a (deduplicated) JSON object. -/
def lookupLastJ (k : String) (fields : List (String × PyJson)) : Option PyJson :=
  ((fields.filter (fun f => f.1 = k)).getLast?).map (fun f => f.2)

/-- Python `len` on a JSON value: defined for strings, arrays and objects,
a `TypeError` (here `none`) otherwise. -/
def pyLenJson : PyJson → Option Nat
  | .str s => some s.length
  | .arr l => some l.length
  | .obj f => some f.length
  | _ => none

/-- Warning appended when no JSON candidate is found in the reply. -/
def warnNoFormat : String :=
  "\n\n⚠️ Non sono riuscito a generare la presentazione nel formato corretto. Per favore, riprova con una richiesta più specifica."

/-- Warning appended when extraction raises (bad JSON, or `len` TypeError). -/
def warnGenError : String :=
  "\n\n⚠️ Errore nella generazione della presentazione. Riprova."

/-- The post-processing of `generate_presentation_without_tools` on the model
reply: if the fence is present, return unchanged; otherwise regex-extract a
JSON candidate, parse it, and — only when `title` and `slides` are keys and
`len(slides) > 0` — append the reconstructed fenced block.  A missing
candidate appends `warnNoFormat`; a parse failure or `len` fault appends
`warnGenError`; a candidate that parses but fails the key/length test
returns the reply unchanged (only a log line is emitted). -/
def presentationFallbackPost (content : String) : String :=
  if containsSubstr content "```presentation_data" then content
  else
    match presRegexSearch content with
    | none => content ++ warnNoFormat
    | some jsonStr =>
      match jsonLoads jsonStr with
      | .error _ => content ++ warnGenError
      | .ok j =>
        match j with
        | .obj fields =>
          if (lookupLastJ "title" fields).isSome then
            if (lookupLastJ "slides" fields).isSome then
              match pyLenJson ((lookupLastJ "slides" fields).getD .null) with
              | none => content ++ warnGenError
              | some n =>
                if n > 0 then
                  content ++ "\n\n```presentation_data\n" ++ jsonDumps j ++ "\n```"
                else content
            else content
          else content
        | _ => content ++ warnGenError

/-- `generate_presentation_without_tools` as a function of the model reply. -/
def generate_presentation_without_tools (responseContent : String) : String :=
  presentationFallbackPost responseContent

/-! ## Concrete instances used by witnesses and counterexamples -/

/-- A question whose `points` is explicitly 0 (legal input: `ge=0`). -/
def qZero : QuizQuestionInput :=
  ⟨some "Quanto fa 1+1?", some ["1", "2"], some 1, none, some 0⟩

/-- A quiz input with one zero-point question and no `total_points`. -/
def quizZeroPts : QuizInput :=
  ⟨some "Quiz prova", some "Una prova.", some [qZero], none, none⟩

/-- Reading of the spec sentence this validator is claimed to implement,
modelled from the spec: "`total_points` ... is set to the sum of
per-question points (each defaulting to 1)" — the per-question value is the
supplied `points`, with 1 only substituted when the field is absent. -/
def specTotalPoints (qs : List QuizQuestionInput) : Int :=
  (qs.map (fun q => q.points.getD 1)).foldl (· + ·) 0

/-- A fully valid question input. -/
def qOk : QuizQuestionInput :=
  ⟨some "Quanto fa 2+2?", some ["3", "4", "5", "6"], some 1, some "2+2=4", none⟩

/-- A fully valid quiz input. -/
def quizOk : QuizInput :=
  ⟨some "Quiz frazioni", some "Quiz di prova sulle frazioni.", some [qOk], none, none⟩

/-- The validated form of `quizOk`. -/
def quizOkValidated : QuizData :=
  ⟨"Quiz frazioni", "Quiz di prova sulle frazioni.",
   [⟨"Quanto fa 2+2?", ["3", "4", "5", "6"], 1, some "2+2=4", 1⟩], 1, none⟩

/-- A quiz input whose only question has `correctIndex` out of range. -/
def quizBad : QuizInput :=
  ⟨some "Quiz prova", some "Una prova.",
   some [⟨some "Quanto fa 1+1?", some ["1", "2"], some 5, none, none⟩], none, none⟩

/-- Stub backend: one valid `create_quiz` call, then a final text. -/
def stubValid : Nat → BackendResponse
  | 0 => .reply "Creo il quiz" [⟨"call_1", "create_quiz", some quizOk⟩]
  | _ => .reply "Ecco il quiz" []

/-- Stub backend: one invalid `create_quiz` call, then a final text. -/
def stubBad : Nat → BackendResponse
  | 0 => .reply "Provo" [⟨"call_1", "create_quiz", some quizBad⟩]
  | _ => .reply "done" []

/-- Stub backend that always faults (the API call raises). -/
def stubFault : Nat → BackendResponse :=
  fun _ => .fault "boom"

/-- Stub backend that always requests an unknown tool (never a final text). -/
def stubLoop : Nat → BackendResponse :=
  fun _ => .reply "ancora" [⟨"c", "unknown_tool", none⟩]

/-- Snippet whose second statement references the disallowed name `open`
after a first statement that changes the namespace. -/
def pyCexCode : List PyStmt :=
  [.assign "x" (.lit 1), .exprStmt (.var "open")]

/-! # Theorems -/

/-! ## Agent-loop lemmas -/

/-- The loop issues at most one backend call per remaining iteration. -/
theorem quizLoopAux_calls_le (backend : Nat → BackendResponse) :
    ∀ fuel calls msgs art, (quizLoopAux backend fuel calls msgs art).calls ≤ calls + fuel := by
  intro fuel
  induction fuel with
  | zero =>
    intro calls msgs art
    cases art <;> simp [quizLoopAux]
  | succ n ih =>
    intro calls msgs art
    rcases hb : backend calls with e | ⟨content, tcs⟩
    · by_cases hn : n = 0
      · simp only [quizLoopAux, hb, if_pos hn]
        omega
      · simp only [quizLoopAux, hb, if_neg hn]
        exact le_trans (ih (calls + 1) msgs art) (by omega)
    · cases tcs with
      | nil =>
        simp only [quizLoopAux, hb]
        cases art
        · show calls + 1 ≤ calls + (n + 1)
          omega
        · show calls + 1 ≤ calls + (n + 1)
          omega
      | cons tc ts =>
        rcases hE : execQuizToolCalls (tc :: ts) (msgs ++ [⟨Role.assistant, content⟩]) art
          with ⟨m2, a2, err⟩
        cases err with
        | none =>
          simp only [quizLoopAux, hb, hE]
          exact le_trans (ih (calls + 1) m2 a2) (by omega)
        | some e =>
          by_cases hn : n = 0
          · simp only [quizLoopAux, hb, hE, if_pos hn]
            omega
          · simp only [quizLoopAux, hb, hE, if_neg hn]
            exact le_trans (ih (calls + 1) m2 a2) (by omega)

/-- If the loop ends by exhaustion, the result is the re-wrapped captured
artifact, or the apology when none was captured. -/
theorem quizLoopAux_exhausted_shape (backend : Nat → BackendResponse) :
    ∀ fuel calls msgs art,
      (quizLoopAux backend fuel calls msgs art).reason = TermReason.exhausted →
      (∃ d, (quizLoopAux backend fuel calls msgs art).artifact = some d ∧
        (quizLoopAux backend fuel calls msgs art).result =
          Except.ok ("Quiz generato:" ++ quizBlock d)) ∨
      ((quizLoopAux backend fuel calls msgs art).artifact = none ∧
        (quizLoopAux backend fuel calls msgs art).result = Except.ok quizApology) := by
  intro fuel
  induction fuel with
  | zero =>
    intro calls msgs art _
    cases art with
    | some d => exact Or.inl ⟨d, by simp [quizLoopAux], by simp [quizLoopAux]⟩
    | none => exact Or.inr ⟨by simp [quizLoopAux], by simp [quizLoopAux]⟩
  | succ n ih =>
    intro calls msgs art h
    rcases hb : backend calls with e | ⟨content, tcs⟩
    · by_cases hn : n = 0
      · simp only [quizLoopAux, hb, if_pos hn] at h
        simp at h
      · simp only [quizLoopAux, hb, if_neg hn] at h ⊢
        exact ih (calls + 1) msgs art h
    · cases tcs with
      | nil =>
        cases art with
        | some d =>
          simp only [quizLoopAux, hb] at h
          simp at h
        | none =>
          simp only [quizLoopAux, hb] at h
          simp at h
      | cons tc ts =>
        rcases hE : execQuizToolCalls (tc :: ts) (msgs ++ [⟨Role.assistant, content⟩]) art
          with ⟨m2, a2, err⟩
        cases err with
        | none =>
          simp only [quizLoopAux, hb, hE] at h ⊢
          exact ih (calls + 1) m2 a2 h
        | some e =>
          by_cases hn : n = 0
          · simp only [quizLoopAux, hb, hE, if_pos hn] at h
            simp at h
          · simp only [quizLoopAux, hb, hE, if_neg hn] at h ⊢
            exact ih (calls + 1) m2 a2 h

/-- If the loop ends on a tool-call-free response whose text lacks the fence
while an artifact was captured, the fenced block is appended to that text. -/
theorem quizLoopAux_final_embeds (backend : Nat → BackendResponse) :
    ∀ fuel calls msgs art t d,
      (quizLoopAux backend fuel calls msgs art).reason = TermReason.finalResponse →
      (quizLoopAux backend fuel calls msgs art).finalRaw = some t →
      (quizLoopAux backend fuel calls msgs art).artifact = some d →
      containsSubstr t "```quiz_data" = false →
      (quizLoopAux backend fuel calls msgs art).result = Except.ok (t ++ quizBlock d) := by
  intro fuel
  induction fuel with
  | zero =>
    intro calls msgs art t d h _ _ _
    cases art with
    | some d0 => simp [quizLoopAux] at h
    | none => simp [quizLoopAux] at h
  | succ n ih =>
    intro calls msgs art t d h h1 h2 h3
    rcases hb : backend calls with e | ⟨content, tcs⟩
    · by_cases hn : n = 0
      · simp only [quizLoopAux, hb, if_pos hn] at h
        simp at h
      · simp only [quizLoopAux, hb, if_neg hn] at h h1 h2 ⊢
        exact ih (calls + 1) msgs art t d h h1 h2 h3
    · cases tcs with
      | nil =>
        cases art with
        | some d0 =>
          simp only [quizLoopAux, hb] at h1 h2 ⊢
          obtain rfl : content = t := by simpa using h1
          obtain rfl : d0 = d := by simpa using h2
          simp [h3]
        | none =>
          simp only [quizLoopAux, hb] at h2
          simp at h2
      | cons tc ts =>
        rcases hE : execQuizToolCalls (tc :: ts) (msgs ++ [⟨Role.assistant, content⟩]) art
          with ⟨m2, a2, err⟩
        cases err with
        | none =>
          simp only [quizLoopAux, hb, hE] at h h1 h2 ⊢
          exact ih (calls + 1) m2 a2 t d h h1 h2 h3
        | some e =>
          by_cases hn : n = 0
          · simp only [quizLoopAux, hb, hE, if_pos hn] at h
            simp at h
          · simp only [quizLoopAux, hb, hE, if_neg hn] at h h1 h2 ⊢
            exact ih (calls + 1) m2 a2 t d h h1 h2 h3

/-! ## Claims about the agent loop -/

/-- **C1** (amended): for every backend stream and every iteration budget,
the with-tools quiz run issues at most `max_iterations` backend calls; and
whenever the budget is exhausted without a tool-call-free response *and
without an exception raised on the final iteration*, the run returns the
captured artifact re-wrapped in its fenced block, or the terminal apology if
no artifact was captured.  (A fault raised on the final iteration is instead
re-raised, see the counterexample.) -/
theorem quiz_loop_call_bound_and_forced_terminal
    (backend : Nat → BackendResponse) (userMessages : List Msg) (max_iterations : Nat) :
    (generate_quiz_with_tools backend userMessages max_iterations).calls ≤ max_iterations ∧
    ((generate_quiz_with_tools backend userMessages max_iterations).reason =
        TermReason.exhausted →
      (∃ d, (generate_quiz_with_tools backend userMessages max_iterations).artifact = some d ∧
        (generate_quiz_with_tools backend userMessages max_iterations).result =
          Except.ok ("Quiz generato:" ++ quizBlock d)) ∨
      ((generate_quiz_with_tools backend userMessages max_iterations).artifact = none ∧
        (generate_quiz_with_tools backend userMessages max_iterations).result =
          Except.ok quizApology)) := by
  constructor
  · have h := quizLoopAux_calls_le backend max_iterations 0
      (⟨Role.system, "QUIZ_AGENT_PROMPT"⟩ :: userMessages) none
    simpa [generate_quiz_with_tools] using h
  · intro h
    exact quizLoopAux_exhausted_shape backend max_iterations 0
      (⟨Role.system, "QUIZ_AGENT_PROMPT"⟩ :: userMessages) none h

/-- Witness for C1: a stub backend that always requests a tool call, budget 2:
both conjuncts instantiate, and the exhausted run returns the apology. -/
theorem quiz_loop_call_bound_witness :
    (generate_quiz_with_tools stubLoop [] 2).calls ≤ 2 ∧
    ((∃ d, (generate_quiz_with_tools stubLoop [] 2).artifact = some d ∧
      (generate_quiz_with_tools stubLoop [] 2).result =
        Except.ok ("Quiz generato:" ++ quizBlock d)) ∨
    ((generate_quiz_with_tools stubLoop [] 2).artifact = none ∧
      (generate_quiz_with_tools stubLoop [] 2).result = Except.ok quizApology)) :=
  ⟨(quiz_loop_call_bound_and_forced_terminal stubLoop [] 2).1,
   (quiz_loop_call_bound_and_forced_terminal stubLoop [] 2).2 (by decide)⟩

/-- Counterexample for C1 as stated: with budget 1 and a backend whose only
call faults, the budget is exhausted (one call issued) without any
tool-call-free response and without a captured artifact, yet the run does
not return the apology — it re-raises the fault. -/
theorem quiz_loop_last_iteration_fault_counterexample :
    (generate_quiz_with_tools stubFault [] 1).calls = 1 ∧
    (generate_quiz_with_tools stubFault [] 1).finalRaw = none ∧
    (generate_quiz_with_tools stubFault [] 1).artifact = none ∧
    (generate_quiz_with_tools stubFault [] 1).result = Except.error "boom" ∧
    (generate_quiz_with_tools stubFault [] 1).result ≠ Except.ok quizApology := by
  decide

/-- **C9** (confirmed): whenever a validated artifact was captured earlier in
the run and the terminating tool-call-free response text does not already
contain the `quiz_data` fence, the fenced block for the captured artifact is
appended to the returned text. -/
theorem captured_artifact_embedded
    (backend : Nat → BackendResponse) (userMessages : List Msg) (max_iterations : Nat)
    (t : String) (d : QuizData) :
    (generate_quiz_with_tools backend userMessages max_iterations).reason =
      TermReason.finalResponse →
    (generate_quiz_with_tools backend userMessages max_iterations).finalRaw = some t →
    (generate_quiz_with_tools backend userMessages max_iterations).artifact = some d →
    containsSubstr t "```quiz_data" = false →
    (generate_quiz_with_tools backend userMessages max_iterations).result =
      Except.ok (t ++ quizBlock d) := by
  intro h h1 h2 h3
  exact quizLoopAux_final_embeds backend max_iterations 0
    (⟨Role.system, "QUIZ_AGENT_PROMPT"⟩ :: userMessages) none t d h h1 h2 h3

/-- Witness for C9: a stub backend that first issues a valid `create_quiz`
call and then a final text without the fence; the block is appended. -/
theorem captured_artifact_embedded_witness :
    (generate_quiz_with_tools stubValid [⟨Role.user, "quiz"⟩] 3).result =
      Except.ok ("Ecco il quiz" ++ quizBlock quizOkValidated) :=
  captured_artifact_embedded stubValid [⟨Role.user, "quiz"⟩] 3 "Ecco il quiz" quizOkValidated
    (by decide) (by decide) (by decide) (by decide)

/-- **C5** (the claim is right, the code is wrong): a `create_quiz` tool call
whose arguments fail validation makes `execute_create_quiz` raise instead of
producing a `success=false` ToolResult; the loop-level `except` swallows the
exception, so *no* tool-role message is appended for the failing request (the
assistant's tool-call message is left dangling) and no corrective feedback
reaches the model; the loop then continues and here terminates normally.
Evaluated at the failing input `quizBad` (correctIndex 5 with 2 options). -/
theorem quiz_validation_failure_no_tool_message :
    validateQuizData quizBad = Except.error "correctIndex 5 is out of range for 2 options" ∧
    (generate_quiz_with_tools stubBad [] 2).messages.filter
      (fun m => m.role = Role.tool) = [] ∧
    (generate_quiz_with_tools stubBad [] 2).messages.filter
      (fun m => m.role = Role.assistant) = [⟨Role.assistant, "Provo"⟩] ∧
    (generate_quiz_with_tools stubBad [] 2).artifact = none ∧
    (generate_quiz_with_tools stubBad [] 2).result = Except.ok "done" := by
  decide

/-! ## Claims about the orchestrator and router -/

/-- **C2** (amended): any fault raised by the routed generator after intent
classification resolves to the outcome of the analytics safety-net call —
hence to a textual answer whenever that call itself succeeds.  (If the
safety-net call also faults, its fault escapes: see the counterexample.) -/
theorem teacher_agent_safety_net (cls : IntentResult)
    (route : TeacherIntent → Except String String)
    (analyticsNet : Except String String) (e : String) :
    route (resolveIntent cls) = Except.error e →
    run_teacher_agent cls route analyticsNet = analyticsNet := by
  intro h
  unfold run_teacher_agent
  rw [h]

/-- Witness for C2: a faulting quiz generator with a healthy analytics net
yields the analytics text. -/
theorem teacher_agent_safety_net_witness :
    run_teacher_agent ⟨TeacherIntent.QUIZ_GENERATION, 9/10, none⟩
      (fun _ => Except.error "generator fault") (Except.ok "risposta analitica") =
      Except.ok "risposta analitica" :=
  teacher_agent_safety_net ⟨TeacherIntent.QUIZ_GENERATION, 9/10, none⟩
    (fun _ => Except.error "generator fault") (Except.ok "risposta analitica")
    "generator fault" rfl

/-- Counterexample for C2 as stated: when the analytics safety-net call
itself faults, the invocation does not return any textual answer — the fault
escapes to the caller. -/
theorem teacher_agent_net_fault_counterexample :
    run_teacher_agent ⟨TeacherIntent.QUIZ_GENERATION, 9/10, none⟩
      (fun _ => Except.error "generator fault") (Except.error "analytics fault") =
      Except.error "analytics fault" := rfl

/-- **C3** (confirmed): a classification confidence below 0.6 forces the
routed intent to the analytics default; at or above 0.6 the classified
intent is kept. -/
theorem router_confidence_floor (r : IntentResult) :
    (r.confidence < 6/10 → resolveIntent r = TeacherIntent.ANALYTICS) ∧
    (6/10 ≤ r.confidence → resolveIntent r = r.intent) := by
  constructor
  · intro h
    simp [resolveIntent, h]
  · intro h
    simp [resolveIntent, not_lt.mpr h]

/-- Witness for C3: the spec's scenario (`web_search` at 0.4 routes to
analytics) and a high-confidence result that keeps its intent. -/
theorem router_confidence_floor_witness :
    resolveIntent ⟨TeacherIntent.WEB_SEARCH, 2/5, none⟩ = TeacherIntent.ANALYTICS ∧
    resolveIntent ⟨TeacherIntent.QUIZ_GENERATION, 9/10, none⟩ =
      TeacherIntent.QUIZ_GENERATION :=
  ⟨(router_confidence_floor ⟨TeacherIntent.WEB_SEARCH, 2/5, none⟩).1 (by norm_num),
   (router_confidence_floor ⟨TeacherIntent.QUIZ_GENERATION, 9/10, none⟩).2 (by norm_num)⟩

/-! ## Claims about the quiz validator -/

/-- Any accepted question satisfies the index and option-count bounds. -/
theorem validateQuizQuestion_ok {qi : QuizQuestionInput} {q : QuizQuestion} :
    validateQuizQuestion qi = Except.ok q →
    0 ≤ q.correctIndex ∧ q.correctIndex < (q.options.length : Int) ∧
      2 ≤ q.options.length ∧ q.options.length ≤ 6 := by
  intro h
  unfold validateQuizQuestion at h
  repeat' split at h
  all_goals first
    | exact Except.noConfusion h
    | (injection h with h2
       subst h2
       refine ⟨?_, ?_, ?_, ?_⟩ <;> simp <;> omega)

/-- Every member of an accepted question list comes from an accepted input. -/
theorem validateQuestions_mem :
    ∀ qs vs, validateQuestions qs = Except.ok vs →
      ∀ v ∈ vs, ∃ qi, validateQuizQuestion qi = Except.ok v := by
  intro qs
  induction qs with
  | nil =>
    intro vs h v hv
    simp only [validateQuestions] at h
    obtain rfl : ([] : List QuizQuestion) = vs := by simpa using h
    simp at hv
  | cons q rest ih =>
    intro vs h v hv
    simp only [validateQuestions] at h
    cases hq : validateQuizQuestion q with
    | error e => rw [hq] at h; simp at h
    | ok w =>
      rw [hq] at h
      cases hr : validateQuestions rest with
      | error e => rw [hr] at h; simp at h
      | ok ws =>
        rw [hr] at h
        obtain rfl : w :: ws = vs := by simpa using h
        rcases List.mem_cons.mp hv with rfl | hv'
        · exact ⟨q, hq⟩
        · exact ih ws hr v hv'

/-- Shape of an accepted quiz: the questions come from `validateQuestions`
and `total_points` is the given value, or the `pyOr1` sum when absent. -/
theorem validateQuizData_ok {i : QuizInput} {d : QuizData} :
    validateQuizData i = Except.ok d →
    (∃ qs, i.questions = some qs ∧ validateQuestions qs = Except.ok d.questions) ∧
    (i.total_points = none →
      d.total_points = (d.questions.map (fun q => pyOr1 q.points)).foldl (· + ·) 0) ∧
    (∀ tp, i.total_points = some tp → d.total_points = tp) := by
  intro h
  unfold validateQuizData at h
  cases hT : i.title with
  | none => simp [hT] at h
  | some t =>
  simp only [hT] at h
  by_cases h1 : t.length < 3
  · simp [h1] at h
  · rw [if_neg h1] at h
    by_cases h2 : t.length > 255
    · simp [h2] at h
    · rw [if_neg h2] at h
      cases hD : i.description with
      | none => simp [hD] at h
      | some de =>
      simp only [hD] at h
      by_cases h3 : de.length < 5
      · simp [h3] at h
      · rw [if_neg h3] at h
        cases hQ : i.questions with
        | none => simp [hQ] at h
        | some qs =>
        simp only [hQ] at h
        by_cases h4 : qs.length < 1
        · simp [h4] at h
        · rw [if_neg h4] at h
          cases hV : validateQuestions qs with
          | error e => simp only [hV] at h; simp at h
          | ok vqs =>
          simp only [hV] at h
          cases hTP : i.total_points with
          | some tp =>
            simp only [hTP] at h
            by_cases h5 : tp < 0
            · simp [h5] at h
            · rw [if_neg h5] at h
              cases hTL : i.time_limit_minutes with
              | some tl =>
                simp only [hTL] at h
                by_cases h6 : tl < 1 ∨ tl > 300
                · simp [h6] at h
                · rw [if_neg h6] at h
                  obtain rfl : (⟨t, de, vqs, tp, some tl⟩ : QuizData) = d := by simpa using h
                  refine ⟨⟨qs, rfl, hV⟩, ?_, ?_⟩
                  · intro hc; simp at hc
                  · intro tp' hc
                    rw [← Option.some.inj hc]
              | none =>
                simp only [hTL] at h
                obtain rfl : (⟨t, de, vqs, tp, none⟩ : QuizData) = d := by simpa using h
                refine ⟨⟨qs, rfl, hV⟩, ?_, ?_⟩
                · intro hc; simp at hc
                · intro tp' hc
                  rw [← Option.some.inj hc]
          | none =>
            simp only [hTP] at h
            cases hTL : i.time_limit_minutes with
            | some tl =>
              simp only [hTL] at h
              by_cases h6 : tl < 1 ∨ tl > 300
              · simp [h6] at h
              · rw [if_neg h6] at h
                obtain rfl :
                    (⟨t, de, vqs, (vqs.map (fun q => pyOr1 q.points)).foldl (· + ·) 0,
                      some tl⟩ : QuizData) = d := by simpa using h
                refine ⟨⟨qs, rfl, hV⟩, fun _ => rfl, ?_⟩
                intro tp' hc
                simp at hc
            | none =>
              simp only [hTL] at h
              obtain rfl :
                  (⟨t, de, vqs, (vqs.map (fun q => pyOr1 q.points)).foldl (· + ·) 0,
                    none⟩ : QuizData) = d := by simpa using h
              refine ⟨⟨qs, rfl, hV⟩, fun _ => rfl, ?_⟩
              intro tp' hc
              simp at hc

/-- **C4** (amended): every accepted quiz satisfies, for each question,
`0 ≤ correctIndex < len(options)` and `2 ≤ len(options) ≤ 6`; when
`total_points` is absent in the input it is set to the sum of per-question
points *with each absent-or-zero `points` counted as 1* (Python `or`
truthiness), and an explicitly supplied `total_points` is kept.  Rejection is
all-or-nothing by construction (`Except`), naming a violated constraint. -/
theorem quiz_validator_invariants (i : QuizInput) (d : QuizData) :
    validateQuizData i = Except.ok d →
    (∀ q ∈ d.questions, 0 ≤ q.correctIndex ∧ q.correctIndex < (q.options.length : Int) ∧
      2 ≤ q.options.length ∧ q.options.length ≤ 6) ∧
    (i.total_points = none →
      d.total_points = (d.questions.map (fun q => pyOr1 q.points)).foldl (· + ·) 0) ∧
    (∀ tp, i.total_points = some tp → d.total_points = tp) := by
  intro h
  obtain ⟨⟨qs, _, hval⟩, h2, h3⟩ := validateQuizData_ok h
  refine ⟨?_, h2, h3⟩
  intro q hq
  obtain ⟨qi, hqi⟩ := validateQuestions_mem qs d.questions hval q hq
  exact validateQuizQuestion_ok hqi

/-- Witness for C4: the valid quiz `quizOk` is accepted; the bounds and the
derived `total_points` hold for its validated form. -/
theorem quiz_validator_invariants_witness :
    (∀ q ∈ quizOkValidated.questions,
      0 ≤ q.correctIndex ∧ q.correctIndex < (q.options.length : Int) ∧
        2 ≤ q.options.length ∧ q.options.length ≤ 6) ∧
    quizOkValidated.total_points =
      ((quizOkValidated.questions.map (fun q => pyOr1 q.points)).foldl (· + ·) 0) :=
  ⟨(quiz_validator_invariants quizOk quizOkValidated (by decide)).1,
   (quiz_validator_invariants quizOk quizOkValidated (by decide)).2.1 rfl⟩

/-- Counterexample for C4 as stated: a question with explicit `points = 0`
is accepted, and the auto-derived `total_points` is 1 — not the claim's
"sum of per-question points (each defaulting to 1)", which is 0 here,
because `q.points or 1` treats the falsy 0 as absent. -/
theorem quiz_total_points_zero_counterexample :
    validateQuizData quizZeroPts =
      Except.ok ⟨"Quiz prova", "Una prova.",
        [⟨"Quanto fa 1+1?", ["1", "2"], 1, none, 0⟩], 1, none⟩ ∧
    specTotalPoints [qZero] = 0 := by
  decide

/-! ## Claims about classification of forced-prefix inputs -/

/-- **C6** (the claim is right about determinism but the code drops the
topic): for the forced-tag input `"CREA QUIZ: frazioni"` the stripped topic
`"frazioni"` is computed, classification issues zero backend calls and
returns the mapped intent with confidence exactly 1 regardless of the
backend — but the result's `extracted_params` is `none`, because the code
passes the topic under the unknown keyword `topic` (the field is
`extracted_params`) and pydantic silently ignores it. -/
theorem forced_prefix_topic_dropped :
    stripForced ["CREA QUIZ:", "❓"] "CREA QUIZ: frazioni" = "frazioni" ∧
    firstForcedMatch "CREA QUIZ: frazioni" =
      some (["CREA QUIZ:", "❓"], TeacherIntent.QUIZ_GENERATION) ∧
    classify_intent "CREA QUIZ: frazioni" (Except.error ()) =
      (⟨TeacherIntent.QUIZ_GENERATION, 1, none⟩, 0) ∧
    classify_intent "CREA QUIZ: frazioni"
        (Except.ok (TeacherIntent.WEB_SEARCH, 9/10, some "x")) =
      (⟨TeacherIntent.QUIZ_GENERATION, 1, none⟩, 0) := by
  decide

/-! ## Claims about the sandbox -/

/-- Running a concatenation first runs the prefix; a fault there short-cuts. -/
theorem pyExecStmts_append_ok :
    ∀ (pre rest : List PyStmt) (st : PyState),
      (pyExecStmts pre st).2 = none →
      pyExecStmts (pre ++ rest) st = pyExecStmts rest (pyExecStmts pre st).1 := by
  intro pre
  induction pre with
  | nil =>
    intro rest st _
    simp [pyExecStmts]
  | cons s ss ih =>
    intro rest st hok
    cases s with
    | assign x e =>
      simp only [List.cons_append, pyExecStmts] at hok ⊢
      cases he : evalPyExpr st.locals e with
      | error err => rw [he] at hok; simp at hok
      | ok v =>
        rw [he] at hok
        exact ih rest _ hok
    | exprStmt e =>
      simp only [List.cons_append, pyExecStmts] at hok ⊢
      cases he : evalPyExpr st.locals e with
      | error err => rw [he] at hok; simp at hok
      | ok v =>
        rw [he] at hok
        exact ih rest _ hok
    | printStmt e =>
      simp only [List.cons_append, pyExecStmts] at hok ⊢
      cases he : evalPyExpr st.locals e with
      | error err => rw [he] at hok; simp at hok
      | ok v =>
        rw [he] at hok
        exact ih rest _ hok

/-- A fault-free run executes every statement. -/
theorem pyExecStmts_executed_of_ok :
    ∀ (code : List PyStmt) (st : PyState),
      (pyExecStmts code st).2 = none →
      (pyExecStmts code st).1.executed = st.executed + code.length := by
  intro code
  induction code with
  | nil =>
    intro st _
    simp [pyExecStmts]
  | cons s ss ih =>
    intro st hok
    cases s with
    | assign x e =>
      simp only [pyExecStmts] at hok ⊢
      cases he : evalPyExpr st.locals e with
      | error err => rw [he] at hok; simp at hok
      | ok v =>
        rw [he] at hok
        have := ih ⟨updateAssoc x v st.locals, st.printed, st.executed + 1⟩ hok
        simpa [Nat.add_assoc, Nat.add_comm, Nat.add_left_comm] using this
    | exprStmt e =>
      simp only [pyExecStmts] at hok ⊢
      cases he : evalPyExpr st.locals e with
      | error err => rw [he] at hok; simp at hok
      | ok v =>
        rw [he] at hok
        have := ih ⟨st.locals, st.printed, st.executed + 1⟩ hok
        simpa [Nat.add_assoc, Nat.add_comm, Nat.add_left_comm] using this
    | printStmt e =>
      simp only [pyExecStmts] at hok ⊢
      cases he : evalPyExpr st.locals e with
      | error err => rw [he] at hok; simp at hok
      | ok v =>
        rw [he] at hok
        have := ih ⟨st.locals, st.printed ++ [pyValStr v], st.executed + 1⟩ hok
        simpa [Nat.add_assoc, Nat.add_comm, Nat.add_left_comm] using this

/-- **C7** (amended): the calculator rejects any expression containing an
identifier outside the allow-list with a failure ToolResult naming it,
strictly before evaluation (the instrumentation Boolean is `false`); the
python sandbox has no such static check — it executes the snippet until the
disallowed reference is reached, so every statement before that reference
runs, and only then converts the `NameError` into a failure ToolResult. -/
theorem sandbox_allowlist_behaviour :
    (∀ expression w, calcFirstBadWord (normalizeCalc expression) = some w →
      safe_calculator_run expression =
        (⟨"calculator", expression, "", false,
          some ("Funzione non consentita: " ++ w)⟩, false)) ∧
    (∀ (pre : List PyStmt) (f : String),
      (pyExecStmts pre ⟨[], [], 0⟩).2 = none →
      lookupAssoc f (pyExecStmts pre ⟨[], [], 0⟩).1.locals = none →
      pyGlobalNames.contains f = false →
      safe_python_math_run (pre ++ [PyStmt.exprStmt (PyExpr.var f)]) =
        (⟨"python", renderPyCode (pre ++ [PyStmt.exprStmt (PyExpr.var f)]), "", false,
          some ("name '" ++ f ++ "' is not defined")⟩, pre.length)) := by
  constructor
  · intro expression w h
    simp only [safe_calculator_run, h]
  · intro pre f hok hloc hglob
    have h1 : pyExecStmts (pre ++ [PyStmt.exprStmt (PyExpr.var f)]) ⟨[], [], 0⟩ =
        ((pyExecStmts pre ⟨[], [], 0⟩).1,
          some ("name '" ++ f ++ "' is not defined")) := by
      rw [pyExecStmts_append_ok pre [PyStmt.exprStmt (PyExpr.var f)] ⟨[], [], 0⟩ hok]
      simp only [pyExecStmts, evalPyExpr, hloc, hglob]
      simp
    have h2 : (pyExecStmts pre ⟨[], [], 0⟩).1.executed = pre.length := by
      have := pyExecStmts_executed_of_ok pre ⟨[], [], 0⟩ hok
      simpa using this
    simp only [safe_python_math_run, h1, h2]

/-- Witness for C7: the calculator rejects `open('x')` before evaluation;
the python sandbox runs `y = 2` before failing on the reference to `os`. -/
theorem sandbox_allowlist_behaviour_witness :
    safe_calculator_run "open('x')" =
      (⟨"calculator", "open('x')", "", false,
        some "Funzione non consentita: open"⟩, false) ∧
    safe_python_math_run [PyStmt.assign "y" (PyExpr.lit 2), PyStmt.exprStmt (PyExpr.var "os")] =
      (⟨"python", "y = 2\nos", "", false, some "name 'os' is not defined"⟩, 1) :=
  ⟨sandbox_allowlist_behaviour.1 "open('x')" "open" (by decide),
   (sandbox_allowlist_behaviour.2 [PyStmt.assign "y" (PyExpr.lit 2)] "os"
     (by decide) (by decide) (by decide)).trans (by decide)⟩

/-- Counterexample for C7 as stated: a snippet referencing the disallowed
identifier `open` is *not* rejected up front — its first statement executes
(one statement completed, the local assignment happened) before the failure
ToolResult is produced. -/
theorem python_math_executes_before_failure_counterexample :
    pyRefsDisallowed pyCexCode = true ∧
    safe_python_math_run pyCexCode =
      (⟨"python", "x = 1\nopen", "", false, some "name 'open' is not defined"⟩, 1) ∧
    (safe_python_math_run pyCexCode).2 ≠ 0 := by
  decide

/-! ## Claims about the tool-free fallback paths -/

/-- **C8** (amended): only the presentation tool-free path post-processes the
model reply.  The quiz, lesson and exercise tool-free paths return the reply
unchanged in every case.  For presentations with the fence missing: no JSON
candidate appends the "formato corretto" warning; an unparsable candidate (or
a `len` fault on a non-sized `slides` value) appends the generic error
warning; a candidate with top-level `title` and a `slides` of positive
length gets the reconstructed fenced block appended; a candidate that parses
but misses the keys, or whose `slides` has length 0, is returned unchanged
(silent). -/
theorem tool_free_fallback_behaviour :
    (∀ c, generate_quiz_without_tools c = c) ∧
    (∀ c, generate_lesson_without_tools c = c) ∧
    (∀ c, generate_exercise_without_tools c = c) ∧
    (∀ content, containsSubstr content "```presentation_data" = false →
      (presRegexSearch content = none →
        generate_presentation_without_tools content = content ++ warnNoFormat) ∧
      (∀ js e, presRegexSearch content = some js → jsonLoads js = Except.error e →
        generate_presentation_without_tools content = content ++ warnGenError) ∧
      (∀ js fields sl n, presRegexSearch content = some js →
        jsonLoads js = Except.ok (PyJson.obj fields) →
        (lookupLastJ "title" fields).isSome = true →
        lookupLastJ "slides" fields = some sl →
        pyLenJson sl = some n → 0 < n →
        generate_presentation_without_tools content =
          content ++ "\n\n```presentation_data\n" ++ jsonDumps (PyJson.obj fields) ++ "\n```") ∧
      (∀ js fields, presRegexSearch content = some js →
        jsonLoads js = Except.ok (PyJson.obj fields) →
        lookupLastJ "title" fields = none →
        generate_presentation_without_tools content = content) ∧
      (∀ js fields, presRegexSearch content = some js →
        jsonLoads js = Except.ok (PyJson.obj fields) →
        (lookupLastJ "title" fields).isSome = true →
        lookupLastJ "slides" fields = none →
        generate_presentation_without_tools content = content) ∧
      (∀ js fields sl, presRegexSearch content = some js →
        jsonLoads js = Except.ok (PyJson.obj fields) →
        (lookupLastJ "title" fields).isSome = true →
        lookupLastJ "slides" fields = some sl →
        pyLenJson sl = some 0 →
        generate_presentation_without_tools content = content) ∧
      (∀ js fields sl, presRegexSearch content = some js →
        jsonLoads js = Except.ok (PyJson.obj fields) →
        (lookupLastJ "title" fields).isSome = true →
        lookupLastJ "slides" fields = some sl →
        pyLenJson sl = none →
        generate_presentation_without_tools content = content ++ warnGenError)) := by
  refine ⟨fun _ => rfl, fun _ => rfl, fun _ => rfl, ?_⟩
  intro content hfence
  refine ⟨?_, ?_, ?_, ?_, ?_, ?_, ?_⟩
  · intro hs
    simp [generate_presentation_without_tools, presentationFallbackPost, hfence, hs]
  · intro js e hs hl
    simp [generate_presentation_without_tools, presentationFallbackPost, hfence, hs, hl]
  · intro js fields sl n hs hl ht hsl hlen hn
    simp [generate_presentation_without_tools, presentationFallbackPost, hfence, hs, hl,
      ht, hsl, hlen, hn]
  · intro js fields hs hl ht
    simp [generate_presentation_without_tools, presentationFallbackPost, hfence, hs, hl, ht]
  · intro js fields hs hl ht hsl
    simp [generate_presentation_without_tools, presentationFallbackPost, hfence, hs, hl,
      ht, hsl]
  · intro js fields sl hs hl ht hsl hlen
    simp [generate_presentation_without_tools, presentationFallbackPost, hfence, hs, hl,
      ht, hsl, hlen]
  · intro js fields sl hs hl ht hsl hlen
    simp [generate_presentation_without_tools, presentationFallbackPost, hfence, hs, hl,
      ht, hsl, hlen]

/-- Witness for C8: the quiz path returns the reply unchanged; the
presentation path, on a fence-less reply with no JSON candidate, appends the
visible warning. -/
theorem tool_free_fallback_behaviour_witness :
    generate_quiz_without_tools "ciao" = "ciao" ∧
    generate_presentation_without_tools "ciao" = "ciao" ++ warnNoFormat :=
  ⟨tool_free_fallback_behaviour.1 "ciao",
   (tool_free_fallback_behaviour.2.2.2 "ciao" (by decide)).1 (by decide)⟩

/-- Counterexample for C8 as stated: a quiz tool-free reply lacking the
fenced block is returned verbatim — no extraction is attempted and no
visible warning is appended, so the claimed behaviour fails for the quiz
artifact kind. -/
theorem quiz_fallback_silent_counterexample :
    generate_quiz_without_tools "Ecco il quiz sulle frazioni." =
      "Ecco il quiz sulle frazioni." ∧
    containsSubstr "Ecco il quiz sulle frazioni." "```quiz_data" = false ∧
    containsSubstr "Ecco il quiz sulle frazioni." "⚠️" = false := by
  decide

/-! ## Claims about the calculator -/

/-- **C10** (confirmed): the calculator evaluates `"2+2*3"` with standard
precedence to the output string `"8"` with `success=true`; and every failing
evaluation is returned as a failure `ToolResult` carrying an error string —
the embedding is a total function, mirroring the `try/except` wrapper that
never lets a parse or runtime fault escape. -/
theorem calculator_scenario_and_error_totality :
    safe_calculator "2+2*3" = ⟨"calculator", "2+2*3", "8", true, none⟩ ∧
    (∀ e, (safe_calculator e).success = false → ((safe_calculator e).error).isSome = true) := by
  constructor
  · decide
  · intro e h
    unfold safe_calculator safe_calculator_run at h ⊢
    cases hw : calcFirstBadWord (normalizeCalc e) with
    | some w => simp [hw]
    | none =>
      simp only [hw] at h ⊢
      cases hv : calcEval (normalizeCalc e) with
      | ok v => simp [hv] at h
      | error err => simp [hv]

/-- Witness for C10: the scenario itself, and a failing expression (`"2+"`)
whose result carries an error string. -/
theorem calculator_scenario_witness :
    safe_calculator "2+2*3" = ⟨"calculator", "2+2*3", "8", true, none⟩ ∧
    ((safe_calculator "2+").error).isSome = true :=
  ⟨calculator_scenario_and_error_totality.1,
   calculator_scenario_and_error_totality.2 "2+" (by decide)⟩
